import Mathlib

/-!
# EVA-CALCULATOR: verification of the catalog-based pricing engine

Shallow embedding of the catalog-based calculator in `src/App.tsx`
(the `results` memo at lines 1447-1582 and the `summary` memo at lines
1584-1619), together with the container-capacity constants from the
constants module.  JavaScript numbers are modelled as rationals (`Rat`):
every arithmetic operation the engine performs (+, -, *, /, floor, ceil)
is exact on the inputs considered, so `Rat` is a faithful idealization
except where a JavaScript division by zero would produce Infinity/NaN;
theorems below carry explicit nonzero-divisor hypotheses wherever that
region is touched.
-/

namespace Eva

/-- `CONTAINER_CAPACITIES` keys: the two supported container types. -/
inductive ContainerType where
  | t20
  | t40
deriving DecidableEq, Repr

/-- `export const CONTAINER_CAPACITIES = { '20': 28.2, '40': 67.2 }`. -/
def CONTAINER_CAPACITIES : ContainerType → Rat
  | .t20 => 282 / 10
  | .t40 => 672 / 10

/-- `unknownExpensesType: 'percent' | 'fixed'` from `UserInputs`. -/
inductive ExpensesType where
  | percent
  | fixed
deriving DecidableEq, Repr

/-- The `Product` interface (catalog-based engine): numeric fields as
rationals, `mixPercent`/`quantity` optional, `active` an optional boolean
(absent means active, matching the `p.active !== false` filter). -/
structure Product where
  id : String
  name : String
  dimensions : String
  description : String
  masterCartonCBM : Rat
  unitsPerCarton : Rat
  factoryPriceUSD : Rat
  profitMargin : Rat
  mixPercent : Option Rat := none
  quantity : Option Rat := none
  active : Option Bool := none
deriving DecidableEq, Repr

/-- The `UserInputs` interface for the catalog-based engine. -/
structure UserInputs where
  containerType : ContainerType
  products : List Product
  exchangeRate : Rat
  shippingCostUSD : Rat
  unknownExpensesType : ExpensesType
  unknownExpensesValue : Rat
deriving DecidableEq, Repr

/-- `inputs.products.filter(p => p.active !== false)` (App.tsx:1451). -/
def activeProducts (inputs : UserInputs) : List Product :=
  inputs.products.filter (fun p => p.active ≠ some false)

/-- The truthiness test `product.quantity && product.quantity > 0`
(App.tsx:1461): quantity present and strictly positive. -/
def quantityDriven (p : Product) : Bool :=
  match p.quantity with
  | some q => decide (0 < q)
  | none => false

/-- Intermediate record produced by Step 1 of the engine
(`preliminaryCalculations`, App.tsx:1454-1475). -/
structure PrelimCalc where
  product : Product
  allocatedCBM : Rat
  cartons : Int
  totalUnits : Rat
  actualCBM : Rat
  masterCBM : Rat
deriving DecidableEq, Repr

/-- Step 1 of the engine (App.tsx:1454-1475): quantity-driven branch uses
`ceil(quantity / unitsPerCarton)` cartons; percentage-driven branch uses
`floor(capacity * mixPercent/100 / masterCartonCBM)` cartons and then
re-derives `allocatedCBM = cartons * masterCBM`. -/
def preliminaryCalc (totalCBM : Rat) (product : Product) : PrelimCalc :=
  let masterCBM := product.masterCartonCBM
  if quantityDriven product then
    let totalUnits := product.quantity.getD 0
    let cartons := ⌈totalUnits / product.unitsPerCarton⌉
    let allocatedCBM := (cartons : Rat) * masterCBM
    { product := product, allocatedCBM := allocatedCBM, cartons := cartons,
      totalUnits := totalUnits, actualCBM := allocatedCBM, masterCBM := masterCBM }
  else
    let mixPercent := product.mixPercent.getD 0
    let requestedCBM := totalCBM * (mixPercent / 100)
    let cartons := ⌊requestedCBM / masterCBM⌋
    let totalUnits := (cartons : Rat) * product.unitsPerCarton
    let allocatedCBM := (cartons : Rat) * masterCBM
    { product := product, allocatedCBM := allocatedCBM, cartons := cartons,
      totalUnits := totalUnits, actualCBM := allocatedCBM, masterCBM := masterCBM }

/-- Intermediate record produced by Step 2 of the engine
(`resultsWithPrices`, App.tsx:1478-1505). -/
structure ResultWithPrices where
  product : Product
  allocatedCBM : Rat
  cartons : Int
  totalUnits : Rat
  actualCBM : Rat
  masterCBM : Rat
  priceUSD : Rat
  priceILS : Rat
  landingCostILS : Rat
  totalFactoryPriceUSD : Rat
  customerTotalTransaction : Rat
deriving DecidableEq, Repr

/-- Step 2 of the engine (App.tsx:1478-1505): the unknown-expense value is
applied as a percentage surcharge on the factory price unconditionally
(independent of `unknownExpensesType`), and the customer price divides by
the margin factor only when it is strictly positive. -/
def withPrices (inputs : UserInputs) (pre : PrelimCalc) : ResultWithPrices :=
  let surchargeMultiplier := 1 + inputs.unknownExpensesValue / 100
  let factoryPriceWithSurchargeUSD := pre.product.factoryPriceUSD * surchargeMultiplier
  let marginFactor := 1 - pre.product.profitMargin / 100
  let priceUSD := if 0 < marginFactor then factoryPriceWithSurchargeUSD / marginFactor else 0
  let priceILS := priceUSD * inputs.exchangeRate
  let landingCostUSD := factoryPriceWithSurchargeUSD
  let landingCostILS := landingCostUSD * inputs.exchangeRate
  let totalFactoryPriceUSD := factoryPriceWithSurchargeUSD * pre.totalUnits
  let customerTotalTransaction := priceILS * pre.totalUnits
  { product := pre.product, allocatedCBM := pre.allocatedCBM, cartons := pre.cartons,
    totalUnits := pre.totalUnits, actualCBM := pre.actualCBM, masterCBM := pre.masterCBM,
    priceUSD := priceUSD, priceILS := priceILS, landingCostILS := landingCostILS,
    totalFactoryPriceUSD := totalFactoryPriceUSD,
    customerTotalTransaction := customerTotalTransaction }

/-- Steps 1-2 mapped over the active products (App.tsx:1454, 1478). -/
def resultsWithPrices (inputs : UserInputs) : List ResultWithPrices :=
  ((activeProducts inputs).map
    (preliminaryCalc (CONTAINER_CAPACITIES inputs.containerType))).map
    (withPrices inputs)

/-- `totalCustomerTransaction` (App.tsx:1508). -/
def totalCustomerTransaction (inputs : UserInputs) : Rat :=
  ((resultsWithPrices inputs).map (fun r => r.customerTotalTransaction)).sum

/-- `totalUnknownExpensesILS` (App.tsx:1509-1511). -/
def totalUnknownExpensesILS (inputs : UserInputs) : Rat :=
  match inputs.unknownExpensesType with
  | .percent => totalCustomerTransaction inputs * (inputs.unknownExpensesValue / 100)
  | .fixed => inputs.unknownExpensesValue

/-- `totalUnknownExpensesUSD` (App.tsx:1512). -/
def totalUnknownExpensesUSD (inputs : UserInputs) : Rat :=
  totalUnknownExpensesILS inputs / inputs.exchangeRate

/-- `totalFactoryPriceAll` (App.tsx:1515). -/
def totalFactoryPriceAll (inputs : UserInputs) : Rat :=
  ((resultsWithPrices inputs).map (fun r => r.totalFactoryPriceUSD)).sum

/-- `totalUnitsAll` (App.tsx:1518). -/
def totalUnitsAll (inputs : UserInputs) : Rat :=
  ((resultsWithPrices inputs).map (fun r => r.totalUnits)).sum

/-- `proportionalUnknownExpensesUSD` for one row (App.tsx:1531-1533):
guarded by `totalFactoryPriceAll > 0`. -/
def proportionalUnknownExpensesUSD (inputs : UserInputs) (pre : ResultWithPrices) : Rat :=
  if 0 < totalFactoryPriceAll inputs then
    (pre.totalFactoryPriceUSD / totalFactoryPriceAll inputs) * totalUnknownExpensesUSD inputs
  else 0

/-- `shippingPerUnitUSD` (App.tsx:1539-1541): guarded by `totalUnitsAll > 0`. -/
def shippingPerUnitUSD (inputs : UserInputs) : Rat :=
  if 0 < totalUnitsAll inputs then inputs.shippingCostUSD / totalUnitsAll inputs else 0

/-- The `sizeData` compatibility object built for each row (App.tsx:1552-1560). -/
structure BoxSizeData where
  id : String
  name : String
  dimensions : String
  internalDimensions : String
  masterCBM : Rat
  unitsPerCarton : Rat
  factoryPriceUSD : Rat
deriving DecidableEq, Repr

/-- The `CalculationResult` record returned per row (App.tsx:1562-1580). -/
structure CalculationResult where
  size : BoxSizeData
  allocatedCBM : Rat
  cartons : Int
  totalUnits : Rat
  totalCBM : Rat
  totalFactoryPriceUSD : Rat
  totalExpensesUSD : Rat
  priceUSD : Rat
  priceILS : Rat
  landingCostILS : Rat
  totalProfitILS : Rat
  totalProfitUSD : Rat
  shippingPerUnitUSD : Rat
  shippingPerUnitILS : Rat
  priceWithShippingUSD : Rat
  priceWithShippingILS : Rat
  productProfitMargin : Rat
deriving DecidableEq, Repr

/-- Step 3 of the engine (App.tsx:1521-1581).  The source re-reads
`cartons` by an id lookup into `preliminaryCalculations`
(App.tsx:1549); since that list is exactly the one `pre` came from, the
lookup returns `pre.cartons` whenever product ids are distinct, and it is
modelled as the carried value. -/
def finalStep (inputs : UserInputs) (pre : ResultWithPrices) : CalculationResult :=
  let profitPerUnitILS := pre.priceILS - pre.landingCostILS
  let totalProfitILS := profitPerUnitILS * pre.totalUnits
  let totalProfitUSD := totalProfitILS / inputs.exchangeRate
  let totalCBM := pre.actualCBM
  let proportional := proportionalUnknownExpensesUSD inputs pre
  let totalExpensesUSD := pre.totalFactoryPriceUSD + proportional
  let sPerUnitUSD := shippingPerUnitUSD inputs
  let sPerUnitILS := sPerUnitUSD * inputs.exchangeRate
  let priceWithShippingUSD := pre.priceUSD + sPerUnitUSD
  let priceWithShippingILS := pre.priceILS + sPerUnitILS
  { size := { id := pre.product.id, name := pre.product.name,
              dimensions := pre.product.dimensions, internalDimensions := "",
              masterCBM := pre.masterCBM, unitsPerCarton := pre.product.unitsPerCarton,
              factoryPriceUSD := pre.product.factoryPriceUSD },
    allocatedCBM := pre.actualCBM, cartons := pre.cartons, totalUnits := pre.totalUnits,
    totalCBM := totalCBM, totalFactoryPriceUSD := pre.totalFactoryPriceUSD,
    totalExpensesUSD := totalExpensesUSD, priceUSD := pre.priceUSD, priceILS := pre.priceILS,
    landingCostILS := pre.landingCostILS, totalProfitILS := totalProfitILS,
    totalProfitUSD := totalProfitUSD, shippingPerUnitUSD := sPerUnitUSD,
    shippingPerUnitILS := sPerUnitILS, priceWithShippingUSD := priceWithShippingUSD,
    priceWithShippingILS := priceWithShippingILS,
    productProfitMargin := pre.product.profitMargin }

/-- The full `results` memo (App.tsx:1447-1582). -/
def results (inputs : UserInputs) : List CalculationResult :=
  (resultsWithPrices inputs).map (finalStep inputs)

/-- Whole pipeline for a single product: Step 1 then Step 2 then Step 3. -/
def resultFor (inputs : UserInputs) (p : Product) : CalculationResult :=
  finalStep inputs
    (withPrices inputs (preliminaryCalc (CONTAINER_CAPACITIES inputs.containerType) p))

/-- `SummaryData` minus the `totalUnknownExpensesILS` field: the
accumulator shape of the `baseSummary` reduce (App.tsx:1586-1602). -/
structure BaseSummary where
  totalUnits : Rat
  totalCBMUtilized : Rat
  totalCBM : Rat
  totalFactoryPriceUSD : Rat
  totalExpensesUSD : Rat
  totalInvestmentUSD : Rat
  totalProfitILS : Rat
deriving DecidableEq, Repr

/-- One step of the `baseSummary` reduce (App.tsx:1586-1594): note
`totalInvestmentUSD` accumulates `totalUnits * size.factoryPriceUSD`, the
raw catalog factory price. -/
def baseSummaryStep (acc : BaseSummary) (curr : CalculationResult) : BaseSummary :=
  { totalUnits := acc.totalUnits + curr.totalUnits,
    totalCBMUtilized := acc.totalCBMUtilized + curr.allocatedCBM,
    totalCBM := acc.totalCBM + curr.totalCBM,
    totalFactoryPriceUSD := acc.totalFactoryPriceUSD + curr.totalFactoryPriceUSD,
    totalExpensesUSD := acc.totalExpensesUSD + curr.totalExpensesUSD,
    totalInvestmentUSD := acc.totalInvestmentUSD + curr.totalUnits * curr.size.factoryPriceUSD,
    totalProfitILS := acc.totalProfitILS + curr.totalProfitILS }

/-- The seed of the `baseSummary` reduce (App.tsx:1594-1602):
`totalInvestmentUSD` starts at 0. -/
def baseSummarySeed : BaseSummary :=
  { totalUnits := 0, totalCBMUtilized := 0, totalCBM := 0, totalFactoryPriceUSD := 0,
    totalExpensesUSD := 0, totalInvestmentUSD := 0, totalProfitILS := 0 }

/-- The `SummaryData` record (types module / App.tsx:1613-1618). -/
structure SummaryData where
  totalUnits : Rat
  totalCBMUtilized : Rat
  totalCBM : Rat
  totalFactoryPriceUSD : Rat
  totalExpensesUSD : Rat
  totalInvestmentUSD : Rat
  totalProfitILS : Rat
  totalUnknownExpensesILS : Rat
deriving DecidableEq, Repr

/-- The `summary` memo (App.tsx:1584-1619): reduce over `results`, then
recompute the container-wide unknown-expense total; no shipping or
expense amount is folded into `totalInvestmentUSD` or `totalProfitILS`. -/
def summary (inputs : UserInputs) : SummaryData :=
  let rs := results inputs
  let base := rs.foldl baseSummaryStep baseSummarySeed
  let tct := (rs.map (fun r => r.priceILS * r.totalUnits)).sum
  let tue :=
    match inputs.unknownExpensesType with
    | .percent => tct * (inputs.unknownExpensesValue / 100)
    | .fixed => inputs.unknownExpensesValue
  { totalUnits := base.totalUnits, totalCBMUtilized := base.totalCBMUtilized,
    totalCBM := base.totalCBM, totalFactoryPriceUSD := base.totalFactoryPriceUSD,
    totalExpensesUSD := base.totalExpensesUSD,
    totalInvestmentUSD := base.totalInvestmentUSD,
    totalProfitILS := base.totalProfitILS,
    totalUnknownExpensesILS := tue }

/-! ## Concrete inputs used by witnesses and counterexamples -/

/-- Percentage-driven product: 100% mix, 0.7 CBM cartons of 6 units. -/
def wProduct1 : Product :=
  { id := "w1", name := "", dimensions := "", description := "",
    masterCartonCBM := 7/10, unitsPerCarton := 6, factoryPriceUSD := 5,
    profitMargin := 40, mixPercent := some 100, quantity := none, active := none }

/-- Quantity-driven product: 10 units requested, 6 units per carton. -/
def wProduct2 : Product :=
  { id := "w2", name := "", dimensions := "", description := "",
    masterCartonCBM := 7/10, unitsPerCarton := 6, factoryPriceUSD := 5,
    profitMargin := 40, mixPercent := none, quantity := some 10, active := none }

/-- Product with a negative mix percentage (-10%). -/
def cexNegMix : Product :=
  { id := "c6a", name := "", dimensions := "", description := "",
    masterCartonCBM := 7/10, unitsPerCarton := 6, factoryPriceUSD := 1,
    profitMargin := 0, mixPercent := some (-10), quantity := none, active := none }

/-- Product with a negative master-carton volume. -/
def cexNegMaster : Product :=
  { id := "c6b", name := "", dimensions := "", description := "",
    masterCartonCBM := -(7/10), unitsPerCarton := 6, factoryPriceUSD := 1,
    profitMargin := 0, mixPercent := some 100, quantity := none, active := none }

/-- Percentage-driven product with zero mix percentage. -/
def wProduct6 : Product :=
  { id := "w6", name := "", dimensions := "", description := "",
    masterCartonCBM := 7/10, unitsPerCarton := 6, factoryPriceUSD := 5,
    profitMargin := 40, mixPercent := some 0, quantity := none, active := none }

/-- Quantity-driven product, factory price 10, zero margin. -/
def wProduct3 : Product :=
  { id := "w3", name := "", dimensions := "", description := "",
    masterCartonCBM := 7/10, unitsPerCarton := 6, factoryPriceUSD := 10,
    profitMargin := 0, mixPercent := none, quantity := some 10, active := none }

/-- Fixed expense policy of 32 ILS at exchange rate 3.2: ten USD of
undocumented expense to distribute over one product line. -/
def wInputs3 : UserInputs :=
  { containerType := .t40, products := [wProduct3], exchangeRate := 16/5,
    shippingCostUSD := 0, unknownExpensesType := .fixed, unknownExpensesValue := 32 }

/-- Same product as `wProduct3` but with a negative factory price. -/
def cexProduct3 : Product :=
  { id := "c3", name := "", dimensions := "", description := "",
    masterCartonCBM := 7/10, unitsPerCarton := 6, factoryPriceUSD := -10,
    profitMargin := 0, mixPercent := none, quantity := some 10, active := none }

/-- Inputs whose total factory price is negative (hence nonzero). -/
def cexInputs3 : UserInputs :=
  { containerType := .t40, products := [cexProduct3], exchangeRate := 16/5,
    shippingCostUSD := 0, unknownExpensesType := .fixed, unknownExpensesValue := 32 }

/-- One 10-unit line, 50 USD total shipping: 5 USD of shipping per unit. -/
def wInputs4 : UserInputs :=
  { containerType := .t40, products := [wProduct3], exchangeRate := 1,
    shippingCostUSD := 50, unknownExpensesType := .percent, unknownExpensesValue := 0 }

/-- Quantity-driven product at the degenerate 100% margin. -/
def wProduct5 : Product :=
  { id := "w5", name := "", dimensions := "", description := "",
    masterCartonCBM := 7/10, unitsPerCarton := 6, factoryPriceUSD := 10,
    profitMargin := 100, mixPercent := none, quantity := some 10, active := none }

/-- Inputs holding the margin-100 product. -/
def wInputs5 : UserInputs :=
  { containerType := .t40, products := [wProduct5], exchangeRate := 16/5,
    shippingCostUSD := 0, unknownExpensesType := .percent, unknownExpensesValue := 0 }

/-- A 10% percent expense policy: the surcharge inflates each unit price. -/
def cexInputs7 : UserInputs :=
  { containerType := .t40, products := [wProduct3], exchangeRate := 1,
    shippingCostUSD := 0, unknownExpensesType := .percent, unknownExpensesValue := 10 }

/-- Same as `cexInputs7` with a zero expense value. -/
def wInputs7 : UserInputs :=
  { containerType := .t40, products := [wProduct3], exchangeRate := 1,
    shippingCostUSD := 0, unknownExpensesType := .percent, unknownExpensesValue := 0 }

/-- Empty catalog with a fixed expense policy of 100 ILS. -/
def cexInputs8 : UserInputs :=
  { containerType := .t40, products := [], exchangeRate := 1,
    shippingCostUSD := 0, unknownExpensesType := .fixed, unknownExpensesValue := 100 }

/-- Product switched off by the `active` flag. -/
def wProduct8 : Product :=
  { id := "w8", name := "", dimensions := "", description := "",
    masterCartonCBM := 7/10, unitsPerCarton := 6, factoryPriceUSD := 5,
    profitMargin := 40, mixPercent := some 100, quantity := none, active := some false }

/-- Catalog whose only product is inactive, fixed expense policy 100 ILS. -/
def wInputs8 : UserInputs :=
  { containerType := .t40, products := [wProduct8], exchangeRate := 2,
    shippingCostUSD := 7, unknownExpensesType := .fixed, unknownExpensesValue := 100 }

/-- Product with 50% margin, for the surcharge-inflation witness. -/
def wProduct10 : Product :=
  { id := "w10", name := "", dimensions := "", description := "",
    masterCartonCBM := 7/10, unitsPerCarton := 6, factoryPriceUSD := 10,
    profitMargin := 50, mixPercent := none, quantity := some 10, active := none }

/-- Fixed expense policy whose value 20 nonetheless acts as a 20% surcharge. -/
def wInputs10 : UserInputs :=
  { containerType := .t40, products := [wProduct10], exchangeRate := 1,
    shippingCostUSD := 0, unknownExpensesType := .fixed, unknownExpensesValue := 20 }

/-! ## Shared helper lemmas -/

/-- Projection of `preliminaryCalc`: the product is carried unchanged. -/
@[simp] theorem preliminaryCalc_product (totalCBM : Rat) (p : Product) :
    (preliminaryCalc totalCBM p).product = p := by
  rw [preliminaryCalc]
  split <;> rfl

/-- Projection of `withPrices`: units pass through Step 2 unchanged. -/
@[simp] theorem withPrices_totalUnits (inputs : UserInputs) (pre : PrelimCalc) :
    (withPrices inputs pre).totalUnits = pre.totalUnits := rfl

/-- Projection of `withPrices`: the surcharged line factory total. -/
theorem withPrices_totalFactoryPriceUSD (inputs : UserInputs) (pre : PrelimCalc) :
    (withPrices inputs pre).totalFactoryPriceUSD =
      pre.product.factoryPriceUSD * (1 + inputs.unknownExpensesValue / 100) * pre.totalUnits :=
  rfl

/-- Projection of `withPrices`: the guarded customer price. -/
theorem withPrices_priceUSD (inputs : UserInputs) (pre : PrelimCalc) :
    (withPrices inputs pre).priceUSD =
      if 0 < 1 - pre.product.profitMargin / 100 then
        pre.product.factoryPriceUSD * (1 + inputs.unknownExpensesValue / 100) /
          (1 - pre.product.profitMargin / 100)
      else 0 :=
  rfl

/-- Projection of `withPrices`: the customer price in the local currency. -/
theorem withPrices_priceILS (inputs : UserInputs) (pre : PrelimCalc) :
    (withPrices inputs pre).priceILS =
      (if 0 < 1 - pre.product.profitMargin / 100 then
        pre.product.factoryPriceUSD * (1 + inputs.unknownExpensesValue / 100) /
          (1 - pre.product.profitMargin / 100)
      else 0) * inputs.exchangeRate :=
  rfl

/-- Projection of `withPrices`: the landed cost in the local currency. -/
theorem withPrices_landingCostILS (inputs : UserInputs) (pre : PrelimCalc) :
    (withPrices inputs pre).landingCostILS =
      pre.product.factoryPriceUSD * (1 + inputs.unknownExpensesValue / 100) *
        inputs.exchangeRate :=
  rfl

/-- Projection of `withPrices`: the product is carried unchanged. -/
@[simp] theorem withPrices_product (inputs : UserInputs) (pre : PrelimCalc) :
    (withPrices inputs pre).product = pre.product := rfl

/-- Projection of `finalStep`: shipping per unit is the container-wide value. -/
@[simp] theorem finalStep_shippingPerUnitUSD (inputs : UserInputs) (pre : ResultWithPrices) :
    (finalStep inputs pre).shippingPerUnitUSD = shippingPerUnitUSD inputs := rfl

/-- Projection of `finalStep`: units pass through Step 3 unchanged. -/
@[simp] theorem finalStep_totalUnits (inputs : UserInputs) (pre : ResultWithPrices) :
    (finalStep inputs pre).totalUnits = pre.totalUnits := rfl

/-- Projection of `finalStep`: the line factory total passes through. -/
@[simp] theorem finalStep_totalFactoryPriceUSD (inputs : UserInputs) (pre : ResultWithPrices) :
    (finalStep inputs pre).totalFactoryPriceUSD = pre.totalFactoryPriceUSD := rfl

/-- Projection of `finalStep`: the raw catalog factory price lands in `size`. -/
@[simp] theorem finalStep_size_factoryPriceUSD (inputs : UserInputs) (pre : ResultWithPrices) :
    (finalStep inputs pre).size.factoryPriceUSD = pre.product.factoryPriceUSD := rfl

/-- Projection of `finalStep`: the customer price passes through. -/
@[simp] theorem finalStep_priceUSD (inputs : UserInputs) (pre : ResultWithPrices) :
    (finalStep inputs pre).priceUSD = pre.priceUSD := rfl

/-- Projection of `finalStep`: the line profit in USD. -/
theorem finalStep_totalProfitUSD (inputs : UserInputs) (pre : ResultWithPrices) :
    (finalStep inputs pre).totalProfitUSD =
      (pre.priceILS - pre.landingCostILS) * pre.totalUnits / inputs.exchangeRate := rfl

/-- Projection of `finalStep`: the margin carried for display. -/
@[simp] theorem finalStep_productProfitMargin (inputs : UserInputs) (pre : ResultWithPrices) :
    (finalStep inputs pre).productProfitMargin = pre.product.profitMargin := rfl

/-- `results` is the per-product pipeline mapped over the active products. -/
theorem results_eq_map (inputs : UserInputs) :
    results inputs = (activeProducts inputs).map (resultFor inputs) := by
  simp [results, resultsWithPrices, resultFor, List.map_map]

/-- Summing a map of products of a common right factor. -/
theorem sum_map_mul_right_rat {α : Type} (l : List α) (f : α → Rat) (r : Rat) :
    (l.map fun x => f x * r).sum = (l.map f).sum * r := by
  induction l with
  | nil => simp
  | cons x xs ih => simp [ih, add_mul]

/-- Summing a map of products of a common left factor. -/
theorem sum_map_mul_left_rat {α : Type} (l : List α) (f : α → Rat) (r : Rat) :
    (l.map fun x => r * f x).sum = r * (l.map f).sum := by
  induction l with
  | nil => simp
  | cons x xs ih => simp [ih, mul_add]

/-! ## Claims about the allocation step -/

/-- C1: in percentage-driven mode (no positive quantity) the allocation
computes `requestedCBM = capacity * mixPercent/100`,
`cartons = floor(requestedCBM / masterCartonCBM)`,
`totalUnits = cartons * unitsPerCarton` and
`allocatedCBM = cartons * masterCartonCBM`; hence `allocatedCBM` is an
integer multiple of `masterCartonCBM` and never exceeds the requested
share of the container.  (`results` runs this step on every active
product, see `results_eq_map`; over the rationals the bound is exact so
no floating-point epsilon is needed.) -/
theorem C1_percentage_allocation (totalCBM : Rat) (p : Product)
    (hq : quantityDriven p = false) (hm : 0 < p.masterCartonCBM) :
    (preliminaryCalc totalCBM p).cartons =
      ⌊(totalCBM * (p.mixPercent.getD 0 / 100)) / p.masterCartonCBM⌋ ∧
    (preliminaryCalc totalCBM p).totalUnits =
      ((preliminaryCalc totalCBM p).cartons : Rat) * p.unitsPerCarton ∧
    (preliminaryCalc totalCBM p).allocatedCBM =
      ((preliminaryCalc totalCBM p).cartons : Rat) * p.masterCartonCBM ∧
    (∃ k : ℤ, (preliminaryCalc totalCBM p).allocatedCBM = (k : Rat) * p.masterCartonCBM) ∧
    (preliminaryCalc totalCBM p).allocatedCBM ≤ totalCBM * (p.mixPercent.getD 0 / 100) := by
  rw [preliminaryCalc, hq]
  simp only [Bool.false_eq_true, if_false]
  refine ⟨trivial, trivial, trivial, ⟨_, rfl⟩, ?_⟩
  have hfl : ((⌊(totalCBM * (p.mixPercent.getD 0 / 100)) / p.masterCartonCBM⌋ : Rat)) ≤
      (totalCBM * (p.mixPercent.getD 0 / 100)) / p.masterCartonCBM :=
    Int.floor_le _
  calc ((⌊(totalCBM * (p.mixPercent.getD 0 / 100)) / p.masterCartonCBM⌋ : Rat)) *
        p.masterCartonCBM
      ≤ ((totalCBM * (p.mixPercent.getD 0 / 100)) / p.masterCartonCBM) * p.masterCartonCBM :=
        mul_le_mul_of_nonneg_right hfl hm.le
    _ = totalCBM * (p.mixPercent.getD 0 / 100) := div_mul_cancel₀ _ hm.ne'

/-- C1 witness: concrete percentage-driven product (100% of a 67.2 CBM
container in 0.7 CBM cartons gives 96 cartons). -/
theorem C1_percentage_allocation_witness :
    quantityDriven wProduct1 = false ∧ 0 < wProduct1.masterCartonCBM ∧
    ((preliminaryCalc (672/10) wProduct1).cartons =
      ⌊((672/10 : Rat) * (wProduct1.mixPercent.getD 0 / 100)) / wProduct1.masterCartonCBM⌋ ∧
    (preliminaryCalc (672/10) wProduct1).totalUnits =
      ((preliminaryCalc (672/10) wProduct1).cartons : Rat) * wProduct1.unitsPerCarton ∧
    (preliminaryCalc (672/10) wProduct1).allocatedCBM =
      ((preliminaryCalc (672/10) wProduct1).cartons : Rat) * wProduct1.masterCartonCBM ∧
    (∃ k : ℤ, (preliminaryCalc (672/10) wProduct1).allocatedCBM =
      (k : Rat) * wProduct1.masterCartonCBM) ∧
    (preliminaryCalc (672/10) wProduct1).allocatedCBM ≤
      (672/10 : Rat) * (wProduct1.mixPercent.getD 0 / 100)) :=
  ⟨rfl, by norm_num [wProduct1],
    C1_percentage_allocation (672/10) wProduct1 rfl (by norm_num [wProduct1])⟩

/-- C2: in quantity-driven mode (`quantity = q > 0`) the allocation
returns `totalUnits = q` exactly (regardless of `masterCartonCBM` and
`unitsPerCarton`), `cartons = ceil(q / unitsPerCarton)`, and
`allocatedCBM = cartons * masterCartonCBM`; the fractional-carton
headroom never becomes extra units. -/
theorem C2_quantity_allocation (totalCBM : Rat) (p : Product) (q : Rat)
    (hq : p.quantity = some q) (hpos : 0 < q) :
    (preliminaryCalc totalCBM p).totalUnits = q ∧
    (preliminaryCalc totalCBM p).cartons = ⌈q / p.unitsPerCarton⌉ ∧
    (preliminaryCalc totalCBM p).allocatedCBM =
      ((preliminaryCalc totalCBM p).cartons : Rat) * p.masterCartonCBM := by
  have hqd : quantityDriven p = true := by
    simp [quantityDriven, hq, hpos]
  rw [preliminaryCalc, hqd]
  simp [hq]

/-- C2 witness: ten requested units in cartons of six give two cartons
and exactly ten units. -/
theorem C2_quantity_allocation_witness :
    wProduct2.quantity = some 10 ∧ (0:Rat) < 10 ∧
    ((preliminaryCalc (672/10) wProduct2).totalUnits = 10 ∧
    (preliminaryCalc (672/10) wProduct2).cartons = ⌈(10:Rat) / wProduct2.unitsPerCarton⌉ ∧
    (preliminaryCalc (672/10) wProduct2).allocatedCBM =
      ((preliminaryCalc (672/10) wProduct2).cartons : Rat) * wProduct2.masterCartonCBM) :=
  ⟨rfl, by norm_num,
    C2_quantity_allocation (672/10) wProduct2 10 rfl (by norm_num)⟩

/-- C6 counterexample: degenerate inputs are NOT defensively zeroed.  A
negative mix percentage (-10% of 67.2 CBM in 0.7 CBM cartons) yields
cartons = -10 and totalUnits = -60, a negative allocation; a negative
master-carton volume (claim: `masterCartonCBM <= 0` gives cartons = 0)
yields cartons = -96. -/
theorem C6_counterexample :
    (preliminaryCalc (672/10) cexNegMix).cartons = -10 ∧
    (preliminaryCalc (672/10) cexNegMix).cartons ≠ 0 ∧
    (preliminaryCalc (672/10) cexNegMix).totalUnits = -60 ∧
    cexNegMaster.masterCartonCBM ≤ 0 ∧
    (preliminaryCalc (672/10) cexNegMaster).cartons = -96 ∧
    (preliminaryCalc (672/10) cexNegMaster).cartons ≠ 0 := by
  refine ⟨?_, ?_, ?_, ?_, ?_, ?_⟩ <;>
    norm_num [preliminaryCalc, quantityDriven, cexNegMix, cexNegMaster]

/-- C6 amended: the allocation step is a total function (never throws),
and a zero `mixPercent` with no positive `quantity` does yield a zero
allocation; but degenerate inputs are not defensively zeroed — a negative
`mixPercent` or a negative `masterCartonCBM` produces a negative carton
count, and `masterCartonCBM ≤ 0` is not treated as "cannot allocate"
(see `C6_counterexample`).  The `masterCartonCBM ≠ 0` hypothesis keeps
the rational model inside the region where JavaScript division is
finite. -/
theorem C6_amended_zero_mix (totalCBM : Rat) (p : Product)
    (hq : quantityDriven p = false) (hmix : p.mixPercent.getD 0 = 0)
    (_hm : p.masterCartonCBM ≠ 0) :
    (preliminaryCalc totalCBM p).cartons = 0 ∧
    (preliminaryCalc totalCBM p).totalUnits = 0 ∧
    (preliminaryCalc totalCBM p).allocatedCBM = 0 := by
  rw [preliminaryCalc, hq]
  simp [hmix]

/-- C6 witness: a concrete zero-mix product allocates nothing. -/
theorem C6_amended_zero_mix_witness :
    quantityDriven wProduct6 = false ∧ wProduct6.mixPercent.getD 0 = 0 ∧
    wProduct6.masterCartonCBM ≠ 0 ∧
    ((preliminaryCalc (672/10) wProduct6).cartons = 0 ∧
    (preliminaryCalc (672/10) wProduct6).totalUnits = 0 ∧
    (preliminaryCalc (672/10) wProduct6).allocatedCBM = 0) :=
  ⟨rfl, rfl, by norm_num [wProduct6],
    C6_amended_zero_mix (672/10) wProduct6 rfl rfl (by norm_num [wProduct6])⟩

/-- C9: for a fixed container capacity and a fixed product with positive
`masterCartonCBM` and `unitsPerCarton`, percentage-driven allocation is
monotone in the requested share: `mixPercent` p1 ≤ p2 never decreases
`totalUnits`. -/
theorem C9_mix_monotone (c : Rat) (p : Product) (m1 m2 : Rat)
    (hc : 0 ≤ c) (hm : 0 < p.masterCartonCBM) (hu : 0 < p.unitsPerCarton)
    (hq : quantityDriven p = false) (h12 : m1 ≤ m2) :
    (preliminaryCalc c { p with mixPercent := some m1 }).totalUnits ≤
      (preliminaryCalc c { p with mixPercent := some m2 }).totalUnits := by
  have hq1 : quantityDriven { p with mixPercent := some m1 } = false := hq
  have hq2 : quantityDriven { p with mixPercent := some m2 } = false := hq
  rw [preliminaryCalc, hq1, preliminaryCalc, hq2]
  simp only [Bool.false_eq_true, if_false, Option.getD_some]
  have hmono : (⌊(c * (m1 / 100)) / p.masterCartonCBM⌋ : Int) ≤
      ⌊(c * (m2 / 100)) / p.masterCartonCBM⌋ := by
    apply Int.floor_le_floor
    apply (div_le_div_iff_of_pos_right hm).mpr
    apply mul_le_mul_of_nonneg_left ?_ hc
    linarith
  exact mul_le_mul_of_nonneg_right (Int.cast_le.mpr hmono) hu.le

/-- C9 witness: at 67.2 CBM capacity, raising the mix from 50% to 100%
raises the unit count. -/
theorem C9_mix_monotone_witness :
    (0:Rat) ≤ 672/10 ∧ 0 < wProduct1.masterCartonCBM ∧ 0 < wProduct1.unitsPerCarton ∧
    quantityDriven wProduct1 = false ∧ (50:Rat) ≤ 100 ∧
    (preliminaryCalc (672/10) { wProduct1 with mixPercent := some 50 }).totalUnits ≤
      (preliminaryCalc (672/10) { wProduct1 with mixPercent := some 100 }).totalUnits :=
  ⟨by norm_num, by norm_num [wProduct1], by norm_num [wProduct1], rfl, by norm_num,
    C9_mix_monotone (672/10) wProduct1 50 100 (by norm_num) (by norm_num [wProduct1])
      (by norm_num [wProduct1]) rfl (by norm_num)⟩

/-! ## Claims about the cost and pricing engine -/

/-- C3 counterexample: the code guards the proportional distribution with
`totalFactoryPriceAll > 0`, not `≠ 0`.  With one line of negative factory
price the total is -132 (nonzero), the undocumented-expense pot is 10 USD,
yet every line's proportional expense is 0: the claimed per-line formula
and the conservation law both fail. -/
theorem C3_counterexample :
    totalFactoryPriceAll cexInputs3 = -132 ∧
    totalUnknownExpensesUSD cexInputs3 = 10 ∧
    ((resultsWithPrices cexInputs3).map (proportionalUnknownExpensesUSD cexInputs3)).sum = 0 ∧
    ((resultsWithPrices cexInputs3).map (proportionalUnknownExpensesUSD cexInputs3)).sum ≠
      totalUnknownExpensesUSD cexInputs3 := by
  have hrw : resultsWithPrices cexInputs3 =
      [withPrices cexInputs3 (preliminaryCalc (672/10) cexProduct3)] := rfl
  have hT : totalFactoryPriceAll cexInputs3 = -132 := by
    rw [totalFactoryPriceAll, hrw]
    simp [withPrices_totalFactoryPriceUSD, preliminaryCalc, quantityDriven, cexProduct3,
      cexInputs3]
    norm_num
  have hE : totalUnknownExpensesUSD cexInputs3 = 10 := by
    rw [totalUnknownExpensesUSD, totalUnknownExpensesILS]
    norm_num [cexInputs3]
  have hsum : ((resultsWithPrices cexInputs3).map
      (proportionalUnknownExpensesUSD cexInputs3)).sum = 0 := by
    rw [hrw]
    simp [proportionalUnknownExpensesUSD, hT]
  exact ⟨hT, hE, hsum, by rw [hsum, hE]; norm_num⟩

/-- C3 amended: each line's proportional undocumented expense equals
`(totalFactoryPriceUSD / totalFactoryPriceAll) * totalUndocumentedExpenseUSD`
and the sum over all lines equals the undocumented-expense total whenever
`totalFactoryPriceAll` is POSITIVE (the code's guard is `> 0`, not
nonzero); when `totalFactoryPriceAll ≤ 0` — in particular when it is 0 —
every line's proportional expense is 0 rather than a division-by-zero
result.  Over the rationals the conservation is exact. -/
theorem C3_expense_distribution (inputs : UserInputs) :
    (0 < totalFactoryPriceAll inputs →
      (∀ r ∈ resultsWithPrices inputs,
        proportionalUnknownExpensesUSD inputs r =
          (r.totalFactoryPriceUSD / totalFactoryPriceAll inputs) *
            totalUnknownExpensesUSD inputs) ∧
      ((resultsWithPrices inputs).map (proportionalUnknownExpensesUSD inputs)).sum =
        totalUnknownExpensesUSD inputs) ∧
    (totalFactoryPriceAll inputs ≤ 0 →
      ∀ r ∈ resultsWithPrices inputs, proportionalUnknownExpensesUSD inputs r = 0) := by
  constructor
  · intro hT
    refine ⟨fun r _ => by rw [proportionalUnknownExpensesUSD, if_pos hT], ?_⟩
    have h1 : (resultsWithPrices inputs).map (proportionalUnknownExpensesUSD inputs) =
        (resultsWithPrices inputs).map (fun r => r.totalFactoryPriceUSD *
          (totalUnknownExpensesUSD inputs / totalFactoryPriceAll inputs)) := by
      apply List.map_congr_left
      intro r _
      rw [proportionalUnknownExpensesUSD, if_pos hT]
      ring
    rw [h1, sum_map_mul_right_rat]
    rw [show ((resultsWithPrices inputs).map (fun r => r.totalFactoryPriceUSD)).sum =
        totalFactoryPriceAll inputs from rfl]
    rw [mul_comm, div_mul_cancel₀ _ hT.ne']
  · intro hT r _
    rw [proportionalUnknownExpensesUSD, if_neg (by exact not_lt.mpr hT)]

/-- C3 witness: one line of 132 USD surcharged factory total receives the
whole 10 USD expense pot. -/
theorem C3_expense_distribution_witness :
    0 < totalFactoryPriceAll wInputs3 ∧
    ((resultsWithPrices wInputs3).map (proportionalUnknownExpensesUSD wInputs3)).sum =
      totalUnknownExpensesUSD wInputs3 := by
  have hT : totalFactoryPriceAll wInputs3 = 132 := by
    rw [totalFactoryPriceAll,
      show resultsWithPrices wInputs3 =
        [withPrices wInputs3 (preliminaryCalc (672/10) wProduct3)] from rfl]
    simp [withPrices_totalFactoryPriceUSD, preliminaryCalc, quantityDriven, wProduct3, wInputs3]
    norm_num
  exact ⟨by rw [hT]; norm_num,
    ((C3_expense_distribution wInputs3).1 (by rw [hT]; norm_num)).2⟩

/-- C4: `shippingPerUnitUSD` is one container-wide value shared by every
line; it equals `shippingCostUSD / totalUnitsAll` when `totalUnitsAll` is
positive and 0 when `totalUnitsAll = 0`; consequently shipping is
conserved: the per-unit charge times the units of each line sums back to
`shippingCostUSD` whenever `totalUnitsAll > 0` (exactly, over the
rationals). -/
theorem C4_shipping_distribution (inputs : UserInputs) :
    (∀ r ∈ results inputs, r.shippingPerUnitUSD = shippingPerUnitUSD inputs) ∧
    (totalUnitsAll inputs = 0 → shippingPerUnitUSD inputs = 0) ∧
    (0 < totalUnitsAll inputs →
      shippingPerUnitUSD inputs = inputs.shippingCostUSD / totalUnitsAll inputs ∧
      ((results inputs).map (fun r => r.shippingPerUnitUSD * r.totalUnits)).sum =
        inputs.shippingCostUSD) := by
  refine ⟨?_, ?_, ?_⟩
  · intro r hr
    rw [results] at hr
    obtain ⟨pre, _, rfl⟩ := List.mem_map.mp hr
    rfl
  · intro hU
    rw [shippingPerUnitUSD, hU]
    norm_num
  · intro hU
    refine ⟨by rw [shippingPerUnitUSD, if_pos hU], ?_⟩
    have h1 : (results inputs).map (fun r => r.shippingPerUnitUSD * r.totalUnits) =
        (resultsWithPrices inputs).map
          (fun pre => shippingPerUnitUSD inputs * pre.totalUnits) := by
      rw [results, List.map_map]
      rfl
    rw [h1, sum_map_mul_left_rat,
      show ((resultsWithPrices inputs).map (fun r => r.totalUnits)).sum =
        totalUnitsAll inputs from rfl,
      shippingPerUnitUSD, if_pos hU, div_mul_cancel₀ _ hU.ne']

/-- C4 witness: 50 USD of shipping across a single 10-unit line is 5 USD
per unit and sums back to 50. -/
theorem C4_shipping_distribution_witness :
    0 < totalUnitsAll wInputs4 ∧
    shippingPerUnitUSD wInputs4 = wInputs4.shippingCostUSD / totalUnitsAll wInputs4 ∧
    ((results wInputs4).map (fun r => r.shippingPerUnitUSD * r.totalUnits)).sum =
      wInputs4.shippingCostUSD := by
  have hU : totalUnitsAll wInputs4 = 10 := by
    rw [totalUnitsAll,
      show resultsWithPrices wInputs4 =
        [withPrices wInputs4 (preliminaryCalc (672/10) wProduct3)] from rfl]
    simp [preliminaryCalc, quantityDriven, wProduct3]
  have hpos : 0 < totalUnitsAll wInputs4 := by rw [hU]; norm_num
  exact ⟨hpos, (C4_shipping_distribution wInputs4).2.2 hpos⟩

/-- C5: a profit margin ≥ 100 yields a zero unit customer price (the
division is guarded, not an error), and the line's profit in USD is then
exactly `-totalFactoryPriceUSD`.  Over the rationals no NaN exists; the
`0 < exchangeRate` hypothesis keeps the USD conversion inside the region
where the JavaScript division is finite (the spec requires a positive
exchange rate).  `resultFor` is the per-product pipeline `results` maps
over every active product (`results_eq_map`), so downstream aggregation
consumes these defined values and cannot fail. -/
theorem C5_margin_degenerate (inputs : UserInputs) (p : Product)
    (hm : 100 ≤ p.profitMargin) (hr : 0 < inputs.exchangeRate) :
    (resultFor inputs p).priceUSD = 0 ∧
    (resultFor inputs p).totalProfitUSD = -(resultFor inputs p).totalFactoryPriceUSD := by
  have hneg : ¬ (0 < 1 - p.profitMargin / 100) := by
    rw [not_lt]
    have : (1:Rat) ≤ p.profitMargin / 100 := by linarith
    linarith
  constructor
  · rw [resultFor, finalStep_priceUSD, withPrices_priceUSD, preliminaryCalc_product,
      if_neg hneg]
  · rw [resultFor, finalStep_totalProfitUSD, finalStep_totalFactoryPriceUSD,
      withPrices_priceILS, withPrices_landingCostILS, withPrices_totalFactoryPriceUSD,
      withPrices_totalUnits, preliminaryCalc_product, if_neg hneg]
    field_simp
    ring

/-- C5 witness: the margin-100 product prices at zero and loses exactly
its surcharged factory total. -/
theorem C5_margin_degenerate_witness :
    (100:Rat) ≤ wProduct5.profitMargin ∧ 0 < wInputs5.exchangeRate ∧
    ((resultFor wInputs5 wProduct5).priceUSD = 0 ∧
    (resultFor wInputs5 wProduct5).totalProfitUSD =
      -(resultFor wInputs5 wProduct5).totalFactoryPriceUSD) :=
  ⟨by norm_num [wProduct5], by norm_num [wInputs5],
    C5_margin_degenerate wInputs5 wProduct5 (by norm_num [wProduct5]) (by norm_num [wInputs5])⟩

/-- C10: the per-unit surcharge uses `unknownExpensesValue` as a
percentage unconditionally — the branch on `unknownExpensesType` exists
only for the container-wide pot.  For any inputs (in particular with a
`fixed` policy) and any product with margin < 100,
`unitPriceUSD = factoryPriceUSD * (1 + value/100) / (1 - margin/100)`,
the line total is surcharged the same way, and under a `fixed` policy the
same value is simultaneously taken as the absolute container-wide
expense amount. -/
theorem C10_unconditional_surcharge (inputs : UserInputs) (p : Product)
    (hm : p.profitMargin < 100) :
    (resultFor inputs p).priceUSD =
      p.factoryPriceUSD * (1 + inputs.unknownExpensesValue / 100) /
        (1 - p.profitMargin / 100) ∧
    (resultFor inputs p).totalFactoryPriceUSD =
      p.factoryPriceUSD * (1 + inputs.unknownExpensesValue / 100) *
        (preliminaryCalc (CONTAINER_CAPACITIES inputs.containerType) p).totalUnits ∧
    (inputs.unknownExpensesType = ExpensesType.fixed →
      totalUnknownExpensesILS inputs = inputs.unknownExpensesValue) := by
  have hpos : 0 < 1 - p.profitMargin / 100 := by linarith
  refine ⟨?_, ?_, ?_⟩
  · rw [resultFor, finalStep_priceUSD, withPrices_priceUSD, preliminaryCalc_product,
      if_pos hpos]
  · rw [resultFor, finalStep_totalFactoryPriceUSD, withPrices_totalFactoryPriceUSD,
      preliminaryCalc_product]
  · intro hty
    rw [totalUnknownExpensesILS, hty]

/-- C10 witness: a fixed policy of value 20 still inflates the unit price
by 20%: price = 10 * 1.2 / 0.5 = 24, and the same 20 is the absolute
container-wide expense amount. -/
theorem C10_unconditional_surcharge_witness :
    wProduct10.profitMargin < 100 ∧
    wInputs10.unknownExpensesType = ExpensesType.fixed ∧
    ((resultFor wInputs10 wProduct10).priceUSD =
      wProduct10.factoryPriceUSD * (1 + wInputs10.unknownExpensesValue / 100) /
        (1 - wProduct10.profitMargin / 100) ∧
    (resultFor wInputs10 wProduct10).totalFactoryPriceUSD =
      wProduct10.factoryPriceUSD * (1 + wInputs10.unknownExpensesValue / 100) *
        (preliminaryCalc (CONTAINER_CAPACITIES wInputs10.containerType) wProduct10).totalUnits ∧
    (wInputs10.unknownExpensesType = ExpensesType.fixed →
      totalUnknownExpensesILS wInputs10 = wInputs10.unknownExpensesValue)) :=
  ⟨by norm_num [wProduct10], rfl,
    C10_unconditional_surcharge wInputs10 wProduct10 (by norm_num [wProduct10])⟩

/-! ## Claims about the aggregator -/

/-- The `baseSummary` reduce accumulates `totalInvestmentUSD` as the
running sum of `totalUnits * size.factoryPriceUSD`. -/
theorem foldl_totalInvestmentUSD (l : List CalculationResult) (acc : BaseSummary) :
    (l.foldl baseSummaryStep acc).totalInvestmentUSD =
      acc.totalInvestmentUSD + (l.map (fun r => r.totalUnits * r.size.factoryPriceUSD)).sum := by
  induction l generalizing acc with
  | nil => simp
  | cons x xs ih =>
    rw [List.foldl_cons, ih]
    simp [baseSummaryStep]
    ring

/-- C7 counterexample: with one active 10-unit line of factory price 10
and a 10% expense value, `totalInvestmentUSD` is 100 (raw factory cost)
while the sum of `totalFactoryPriceUSD` over lines is 110 (surcharged):
the two figures differ whenever the expense value is nonzero. -/
theorem C7_counterexample :
    (summary cexInputs7).totalInvestmentUSD = 100 ∧
    ((results cexInputs7).map (fun r => r.totalFactoryPriceUSD)).sum = 110 ∧
    (summary cexInputs7).totalInvestmentUSD ≠
      ((results cexInputs7).map (fun r => r.totalFactoryPriceUSD)).sum := by
  have hres : results cexInputs7 = [resultFor cexInputs7 wProduct3] := rfl
  have h1 : (summary cexInputs7).totalInvestmentUSD = 100 := by
    show ((results cexInputs7).foldl baseSummaryStep baseSummarySeed).totalInvestmentUSD = 100
    rw [hres, foldl_totalInvestmentUSD]
    simp [baseSummarySeed, resultFor, preliminaryCalc, quantityDriven, wProduct3]
    norm_num
  have h2 : ((results cexInputs7).map (fun r => r.totalFactoryPriceUSD)).sum = 110 := by
    rw [hres]
    simp [resultFor, withPrices_totalFactoryPriceUSD, preliminaryCalc, quantityDriven,
      wProduct3, cexInputs7]
    norm_num
  exact ⟨h1, h2, by rw [h1, h2]; norm_num⟩

/-- C7 amended: in the catalog-based summary, `totalInvestmentUSD` is the
sum over lines of `totalUnits * factoryPriceUSD` — the RAW catalog
factory price, without the unknown-expense surcharge — seeded at 0, with
no shipping or undocumented-expense amount added; it coincides with the
sum of the (surcharged) per-line `totalFactoryPriceUSD` exactly when
`unknownExpensesValue = 0`. -/
theorem C7_investment (inputs : UserInputs) :
    (summary inputs).totalInvestmentUSD =
      ((results inputs).map (fun r => r.totalUnits * r.size.factoryPriceUSD)).sum ∧
    (inputs.unknownExpensesValue = 0 →
      (summary inputs).totalInvestmentUSD =
        ((results inputs).map (fun r => r.totalFactoryPriceUSD)).sum) := by
  have hbase : (summary inputs).totalInvestmentUSD =
      ((results inputs).map (fun r => r.totalUnits * r.size.factoryPriceUSD)).sum := by
    show ((results inputs).foldl baseSummaryStep baseSummarySeed).totalInvestmentUSD = _
    rw [foldl_totalInvestmentUSD]
    simp [baseSummarySeed]
  refine ⟨hbase, fun hv => ?_⟩
  rw [hbase, results_eq_map, List.map_map, List.map_map]
  congr 1
  apply List.map_congr_left
  intro p _
  show (resultFor inputs p).totalUnits * (resultFor inputs p).size.factoryPriceUSD =
    (resultFor inputs p).totalFactoryPriceUSD
  rw [resultFor, finalStep_totalUnits, finalStep_size_factoryPriceUSD,
    finalStep_totalFactoryPriceUSD, withPrices_totalUnits, withPrices_product,
    withPrices_totalFactoryPriceUSD, preliminaryCalc_product, hv]
  ring

/-- C7 witness for the zero-surcharge case: with `unknownExpensesValue`
0 the investment figure does equal the factory-price sum. -/
theorem C7_investment_witness :
    wInputs7.unknownExpensesValue = 0 ∧
    (summary wInputs7).totalInvestmentUSD =
      ((results wInputs7).map (fun r => r.totalFactoryPriceUSD)).sum :=
  ⟨rfl, (C7_investment wInputs7).2 rfl⟩

/-- C8 counterexample: an empty catalog under a `fixed` expense policy of
value 100 yields `totalUnknownExpensesILS = 100`, not 0: the fixed amount
is reported even when nothing is in the container. -/
theorem C8_counterexample :
    activeProducts cexInputs8 = [] ∧
    (summary cexInputs8).totalUnknownExpensesILS = 100 ∧
    (summary cexInputs8).totalUnknownExpensesILS ≠ 0 := by
  refine ⟨rfl, rfl, ?_⟩
  rw [show (summary cexInputs8).totalUnknownExpensesILS = 100 from rfl]
  norm_num

/-- C8 amended: an empty active-product list (no products, or all
inactive) throws no error and yields a summary whose accumulated fields
are all 0 — `totalUnits`, `totalCBMUtilized`, `totalCBM`,
`totalFactoryPriceUSD`, `totalExpensesUSD`, `totalInvestmentUSD`,
`totalProfitILS` — for every shipping cost; the undocumented-expense
total is 0 under a `percent` policy but equals the configured value under
a `fixed` policy (see `C8_counterexample`). -/
theorem C8_empty_catalog (inputs : UserInputs) (hA : activeProducts inputs = []) :
    (summary inputs).totalUnits = 0 ∧
    (summary inputs).totalCBMUtilized = 0 ∧
    (summary inputs).totalCBM = 0 ∧
    (summary inputs).totalFactoryPriceUSD = 0 ∧
    (summary inputs).totalExpensesUSD = 0 ∧
    (summary inputs).totalInvestmentUSD = 0 ∧
    (summary inputs).totalProfitILS = 0 ∧
    (summary inputs).totalUnknownExpensesILS =
      (match inputs.unknownExpensesType with
       | ExpensesType.percent => 0
       | ExpensesType.fixed => inputs.unknownExpensesValue) := by
  have hres : results inputs = [] := by
    rw [results, resultsWithPrices, hA]
    rfl
  cases hty : inputs.unknownExpensesType <;>
    simp [summary, hres, baseSummarySeed, hty]

/-- C8 witness: a catalog whose only product is inactive, under a fixed
policy of 100 ILS with nonzero shipping. -/
theorem C8_empty_catalog_witness :
    activeProducts wInputs8 = [] ∧
    ((summary wInputs8).totalUnits = 0 ∧
    (summary wInputs8).totalCBMUtilized = 0 ∧
    (summary wInputs8).totalCBM = 0 ∧
    (summary wInputs8).totalFactoryPriceUSD = 0 ∧
    (summary wInputs8).totalExpensesUSD = 0 ∧
    (summary wInputs8).totalInvestmentUSD = 0 ∧
    (summary wInputs8).totalProfitILS = 0 ∧
    (summary wInputs8).totalUnknownExpensesILS =
      (match wInputs8.unknownExpensesType with
       | ExpensesType.percent => 0
       | ExpensesType.fixed => wInputs8.unknownExpensesValue)) :=
  ⟨rfl, C8_empty_catalog wInputs8 rfl⟩

end Eva
